import Mathlib

/-!
Verification of the session orchestration and message-reconciliation engine of a
browser-embeddable chat client (the `Papercups` class).

Modelling conventions:
* Timestamps (`sent_at`, `created_at`, `seen_at`) are numeric time values (`Nat`),
  absent ones are `none`.
* JavaScript falsiness of an optional string (absent or empty) is `isFalsyStr`.
* External collaborators (backend API calls, the UUID validator from the `utils`
  module) are passed in as function parameters; side effects (channel joins and
  leaves, pushes, API mutations) are recorded as an explicit `Action` trace.
-/

namespace Papercups

/-- Origin classification of a message. -/
inductive MessageType where
  | customer
  | agent
  | bot
deriving DecidableEq

/-- A transcript message. A message with `created_at = none` is pending
(optimistic); one with a creation timestamp is confirmed. -/
structure Message where
  body : Option String := none
  file_ids : List String := []
  type : MessageType := MessageType.customer
  customer_id : Option String := none
  sent_at : Option Nat := none
  created_at : Option Nat := none
  seen_at : Option Nat := none
deriving DecidableEq

/-- Account-level status inside widget settings. -/
structure Account where
  is_outside_working_hours : Bool := false
deriving DecidableEq

/-- Widget settings fetched from the backend; an empty record means no overrides. -/
structure WidgetSettings where
  greeting : Option String := none
  away_message : Option String := none
  account : Option Account := none
deriving DecidableEq

/-- Customer metadata supplied by the embedding page. -/
structure CustomerMetadata where
  external_id : Option String := none
  email : Option String := none
  host : Option String := none
deriving DecidableEq

/-- JavaScript falsiness of an optional string value: absent or empty. -/
def isFalsyStr : Option String → Bool
  | none => true
  | some s => s == ""

/-- JavaScript `a || b` on optional strings (an absent or empty `a` falls back to `b`). -/
def orFalsy (a b : Option String) : Option String :=
  if isFalsyStr a then b else a

/-- JavaScript's string trim: strip leading and trailing whitespace. -/
def jsTrim (s : String) : String :=
  String.mk (((s.data.dropWhile Char.isWhitespace).reverse.dropWhile
    Char.isWhitespace).reverse)

/-- Modelled from the spec: `areDatesEqual` is defined in the repository's `utils`
module, which is not among the provided sources; per the spec the reconciliation
matches a pending entry "whose send timestamp matches the incoming event's send
timestamp (by equality of their timestamp representation)", so it is equality of
the (optional) timestamp values. -/
def areDatesEqual (a b : Option Nat) : Bool := a == b

/-- The predicate used by `handleMessageCreated` to find a pending transcript entry
matching an incoming confirmed message: no creation timestamp, equal send
timestamps, and matching bodies (with two falsy bodies counting as a match). -/
def isPendingMatch (m message : Message) : Bool :=
  !m.created_at.isSome &&
  areDatesEqual m.sent_at message.sent_at &&
  (m.body == message.body || (isFalsyStr m.body && isFalsyStr message.body))

/-- `Papercups.handleMessageCreated`: reconcile a server-pushed message event
against the transcript.  If some pending entry matches, every entry whose
send timestamp equals the found entry's send timestamp is replaced by the
incoming message; otherwise the incoming message is appended. -/
def handleMessageCreated (messages : List Message) (message : Message) : List Message :=
  match messages.find? (fun m => isPendingMatch m message) with
  | some unsent => messages.map (fun m => if m.sent_at == unsent.sent_at then message else m)
  | none => messages ++ [message]

/-- Overrides passed to `getDefaultGreeting` (a partial message record).  The outer
`Option` records whether the key is present at all; a present key overrides the
field even when its value is itself absent (JavaScript object spread semantics). -/
structure GreetingOverrides where
  created_at : Option (Option Nat) := none
  seen_at : Option (Option Nat) := none
deriving DecidableEq

/-- Apply greeting overrides to a message (object-spread: a present key wins). -/
def applyGreetingOverrides (m : Message) (ov : GreetingOverrides) : Message :=
  { m with
    created_at := ov.created_at.getD m.created_at
    seen_at := ov.seen_at.getD m.seen_at }

/-- The configuration handed to the orchestrator (the fields the core logic reads). -/
structure Config where
  accountId : String
  customerId : Option String := none
  greeting : Option String := none
  awayMessage : Option String := none
  customer : Option CustomerMetadata := none
  setInitialMessage : Option (GreetingOverrides → List Message) := none

/-- A conversation record fetched from the backend. -/
structure Conversation where
  id : String
  messages : List Message := []
deriving DecidableEq

/-- Observable side effects of the orchestrator, recorded as a trace. -/
inductive Action where
  | joinChannel (topic : String)
  | leaveChannel (topic : String)
  | pushShout (payload : Message)
  | pushMessagesSeen
  | createCustomer
  | updateCustomer
  | createConversation
  | cacheCustomerId (id : Option String)
  | validateCustomer (id : String)
deriving DecidableEq

/-- The orchestrator's mutable session state. -/
structure SessionState where
  customerId : Option String := none
  conversationId : Option String := none
  channel : Option String := none
  messages : List Message := []
  settings : WidgetSettings := {}
deriving DecidableEq

/-- The realtime topic joined for a conversation. -/
def conversationTopic (conversationId : String) : String :=
  "conversation:" ++ conversationId

/-- `Papercups.setCustomerId`: store the new id and cache it (the cache write and
the customer-set notification are the recorded effect). -/
def setCustomerId (st : SessionState) (customerId : Option String) :
    SessionState × List Action :=
  ({st with customerId := customerId}, [Action.cacheCustomerId customerId])

/-- `Papercups.joinConversationChannel`: leave any previously joined channel, then
create and join the channel for the given conversation. -/
def joinConversationChannel (st : SessionState) (conversationId : String) :
    SessionState × List Action :=
  let leaves := match st.channel with
    | some topic => [Action.leaveChannel topic]
    | none => []
  let topic := conversationTopic conversationId
  ({st with channel := some topic}, leaves ++ [Action.joinChannel topic])

/-- `Papercups.setConversationId`: record the conversation id and immediately join
its channel. -/
def setConversationId (st : SessionState) (conversationId : String) :
    SessionState × List Action :=
  joinConversationChannel {st with conversationId := some conversationId} conversationId

/-- Channel-membership semantics of one action (join adds a topic, leave removes it). -/
def applyAction (joined : List String) : Action → List String
  | Action.joinChannel topic => joined ++ [topic]
  | Action.leaveChannel topic => joined.erase topic
  | _ => joined

/-- The set of joined channels after a trace of actions, starting from `joined`. -/
def joinedChannels (joined : List String) (acts : List Action) : List String :=
  acts.foldl applyAction joined

/-- Run a sequence of `setConversationId` calls, accumulating the action trace. -/
def runSetConversationIds (st : SessionState) : List String → SessionState × List Action
  | [] => (st, [])
  | cid :: cids =>
    let step := setConversationId st cid
    let rest := runSetConversationIds step.1 cids
    (rest.1, step.2 ++ rest.2)

/-- The optional-message input of `sendNewMessage` (a partial message record). -/
structure MessageInput where
  body : Option String := none
  file_ids : Option (List String) := none
  created_at : Option Nat := none
  seen_at : Option Nat := none
deriving DecidableEq

/-- `Papercups.createOrUpdateCustomer`, effect trace only: update the existing
customer when an id is known (falling back to creation on failure), otherwise
create one.  The resulting customer id is supplied by the `apiCustomerId` oracle
at the call site. -/
def createOrUpdateCustomerActions (existing : Option String) (updateSucceeds : Bool) :
    List Action :=
  match existing with
  | some _ => if updateSucceeds then [Action.updateCustomer]
              else [Action.updateCustomer, Action.createCustomer]
  | none => [Action.createCustomer]

/-- `Papercups.initializeNewConversation`: create or update the customer, create a
conversation, then apply both setters (caching the id and joining the channel). -/
def initializeNewConversation (st : SessionState) (updateSucceeds : Bool)
    (apiCustomerId apiConversationId : String) : SessionState × List Action :=
  let customerActs := createOrUpdateCustomerActions st.customerId updateSucceeds
  let afterCustomer := setCustomerId st (some apiCustomerId)
  let afterConversation := setConversationId afterCustomer.1 apiConversationId
  (afterConversation.1,
    customerActs ++ [Action.createConversation] ++ afterCustomer.2 ++ afterConversation.2)

/-- `Papercups.sendNewMessage`: reject blank messages; otherwise append the stamped
optimistic message, create customer/conversation when either id is missing, and
push the payload on the joined channel (if any).  `now` is the client clock
reading; `apiCustomerId` and `apiConversationId` are the backend's results. -/
def sendNewMessage (st : SessionState) (message : MessageInput) (now : Nat)
    (updateSucceeds : Bool) (apiCustomerId apiConversationId : String) :
    SessionState × List Action :=
  let body := message.body.getD ""
  let file_ids := message.file_ids.getD []
  let isMissingBody := body == "" || (jsTrim body).length == 0
  let isMissingAttachments := file_ids.isEmpty
  if isMissingBody && isMissingAttachments then (st, [])
  else
    let payload : Message :=
      { body := some body
        file_ids := file_ids
        type := MessageType.customer
        customer_id := st.customerId
        sent_at := some now
        created_at := message.created_at
        seen_at := message.seen_at }
    let st1 := {st with messages := st.messages ++ [payload]}
    let afterInit :=
      if st.customerId.isNone || st.conversationId.isNone then
        initializeNewConversation st1 updateSucceeds apiCustomerId apiConversationId
      else (st1, [])
    let pushActs := match afterInit.1.channel with
      | some _ => [Action.pushShout {payload with customer_id := afterInit.1.customerId}]
      | none => []
    (afterInit.1, afterInit.2 ++ pushActs)

/-- `Papercups.markMessagesAsSeen`: push a seen notification on the channel (if
joined) and stamp a seen timestamp on every message that lacks one. -/
def markMessagesAsSeen (st : SessionState) (now : Nat) : SessionState × List Action :=
  let pushActs := match st.channel with
    | some _ => [Action.pushMessagesSeen]
    | none => []
  let messages := st.messages.map (fun msg =>
    if msg.seen_at.isSome then msg else {msg with seen_at := some now})
  ({st with messages := messages}, pushActs)

/-- `Papercups.isValidCustomerId`: a missing, empty or non-UUID id is invalid
without consulting the backend; otherwise ask the backend, and treat a backend
failure as valid for backward compatibility.  `isValidUuid` is the format
validator from the `utils` module (passed as a parameter); `api` is the backend
validation call, which may fail. -/
def isValidCustomerId (customerId : Option String) (isValidUuid : String → Bool)
    (api : String → Except Unit Bool) : Bool × List Action :=
  match customerId with
  | none => (false, [])
  | some cid =>
    if cid.length == 0 then (false, [])
    else if !isValidUuid cid then (false, [])
    else
      match api cid with
      | Except.ok b => (b, [Action.validateCustomer cid])
      | Except.error _ => (true, [Action.validateCustomer cid])

/-- `Papercups.findCustomerByMetadata`: no metadata or no (truthy) external id
means no lookup; otherwise look up by external id with email/host filters.
`api` is the backend `findCustomerByExternalId` call. -/
def findCustomerByMetadata (api : String → Option String → Option String → Option String)
    (metadata : Option CustomerMetadata) : Option String :=
  match metadata with
  | none => none
  | some md =>
    match md.external_id with
    | none => none
    | some eid => if eid == "" then none else api eid md.email md.host

/-- `Papercups.checkForExistingCustomer`: without an external id in the metadata
the candidate id is kept; otherwise the backend lookup's (truthy) match wins,
and a missing match yields `none` regardless of the candidate. -/
def checkForExistingCustomer (api : String → Option String → Option String → Option String)
    (metadata : Option CustomerMetadata) (defaultCustomerId : Option String) :
    Option String :=
  let hasExternalId := match metadata with
    | none => false
    | some md => !(isFalsyStr md.external_id)
  if !hasExternalId then defaultCustomerId
  else
    match findCustomerByMetadata api metadata with
    | none => none
    | some m =>
      if m == "" then none
      else if some m == defaultCustomerId then defaultCustomerId
      else some m

/-- `Papercups.getDefaultGreeting`: delegate to a custom initial-message generator
when configured; otherwise derive at most one synthetic bot message from the
configured/fetched greeting and away message.  `now` is the clock reading used
for the default creation timestamp. -/
def getDefaultGreeting (config : Config) (settings : WidgetSettings) (now : Nat)
    (overrides : GreetingOverrides) : List Message :=
  match config.setInitialMessage with
  | some f => f overrides
  | none =>
    let greeting := orFalsy config.greeting settings.greeting
    let awayMessage := orFalsy config.awayMessage settings.away_message
    if isFalsyStr greeting && isFalsyStr awayMessage then []
    else
      let hasAwayMessage := match awayMessage with
        | some s => decide (s.length > 0)
        | none => false
      let isOutsideWorkingHours := match settings.account with
        | some a => a.is_outside_working_hours
        | none => false
      let shouldDisplayAwayMessage := hasAwayMessage && isOutsideWorkingHours
      [applyGreetingOverrides
        { body := if shouldDisplayAwayMessage then awayMessage else greeting
          type := MessageType.bot
          customer_id := some "bot"
          created_at := some now } overrides]

/-- The sort key used on fetched messages: the numeric creation time. -/
def createdAtKey (m : Message) : Nat := m.created_at.getD 0

/-- Sort fetched messages ascending by creation time (stable, like the runtime's
array sort on the numeric-difference comparator). -/
def sortMessagesByCreatedAt (messages : List Message) : List Message :=
  messages.mergeSort (fun a b => decide (createdAtKey a ≤ createdAtKey b))

/-- `Papercups.fetchLatestConversation`, success branch (a conversation was found):
sort its messages by creation time, pin the greeting default's creation and seen
timestamps to the earliest message's creation time, set the conversation id
(joining its channel) and set the transcript to greeting-then-messages. -/
def fetchLatestConversationFound (st : SessionState) (config : Config)
    (conv : Conversation) (now : Nat) : SessionState × List Action :=
  let formattedMessages := sortMessagesByCreatedAt conv.messages
  let initialMessageCreatedAt := match formattedMessages.head? with
    | some m => m.created_at
    | none => none
  let afterSet := setConversationId st conv.id
  let greet := getDefaultGreeting config afterSet.1.settings now
    { created_at := some initialMessageCreatedAt
      seen_at := some initialMessageCreatedAt }
  ({afterSet.1 with messages := greet ++ formattedMessages}, afterSet.2)

/-- Concrete configuration used as a witness input: a greeting and nothing else. -/
def witnessConfig : Config := { accountId := "a", greeting := some "hi" }

/-- Concrete conversation used as a witness input: two confirmed messages fetched
out of chronological order. -/
def witnessConversation : Conversation :=
  { id := "c1"
    messages :=
      [{ body := some "m2", created_at := some 200 },
       { body := some "m1", created_at := some 100 }] }

/-- Concrete session state used as a witness input: one seen and one unseen
message in the transcript. -/
def witnessSeenState : SessionState :=
  { messages := [{ body := some "x", seen_at := some 1 }, { body := some "y" }] }

/-! ### Theorems -/

theorem isPendingMatch_sent_at_eq {m message : Message}
    (h : isPendingMatch m message = true) : m.sent_at = message.sent_at := by
  simp only [isPendingMatch, areDatesEqual, Bool.and_eq_true, beq_iff_eq] at h
  exact h.1.2

/-- C1: if the transcript holds a pending entry at position `i` whose send
timestamp equals the incoming confirmed event's and whose body matches, then the
reconciled transcript has the same length and carries the incoming event at
position `i` (the pending entry is replaced in place). -/
theorem handleMessageCreated_replaces_matching_pending_in_place
    (messages : List Message) (message : Message) (i : Nat) (hi : i < messages.length)
    (hmatch : isPendingMatch (messages.get ⟨i, hi⟩) message = true) :
    (handleMessageCreated messages message).length = messages.length ∧
    ∃ hi' : i < (handleMessageCreated messages message).length,
      (handleMessageCreated messages message).get ⟨i, hi'⟩ = message := by
  have hmem : messages.get ⟨i, hi⟩ ∈ messages := List.get_mem _ _ hi
  rcases hfind : messages.find? (fun m => isPendingMatch m message) with _ | u
  · exfalso
    have hnone := List.find?_eq_none.mp hfind _ hmem
    rw [List.get_eq_getElem] at hmatch
    simp [hmatch] at hnone
  · have hu : isPendingMatch u message = true := by
      have := List.find?_some hfind
      simpa using this
    have hPts : (messages.get ⟨i, hi⟩).sent_at = message.sent_at :=
      isPendingMatch_sent_at_eq hmatch
    have huts : u.sent_at = message.sent_at := isPendingMatch_sent_at_eq hu
    have hlen : (handleMessageCreated messages message).length = messages.length := by
      simp [handleMessageCreated, hfind]
    refine ⟨hlen, hlen ▸ hi, ?_⟩
    simp only [handleMessageCreated, hfind, List.get_eq_getElem, List.getElem_map]
    rw [show messages[i] = messages.get ⟨i, hi⟩ from rfl, hPts, huts]
    simp

/-- C2: if no transcript entry is a pending match for the incoming confirmed
event, the event is appended at the end and the transcript grows by exactly one. -/
theorem handleMessageCreated_appends_when_no_match
    (messages : List Message) (message : Message)
    (hnone : ∀ m ∈ messages, isPendingMatch m message = false) :
    handleMessageCreated messages message = messages ++ [message] ∧
    (handleMessageCreated messages message).length = messages.length + 1 := by
  have hfind : messages.find? (fun m => isPendingMatch m message) = none := by
    rw [List.find?_eq_none]
    intro x hx
    simp [hnone x hx]
  constructor
  · simp [handleMessageCreated, hfind]
  · simp [handleMessageCreated, hfind]

/-- Witness for C1 at a concrete transcript: a pending "hi" sent at 5 is replaced
in place by the confirmed event with creation time 9. -/
theorem handleMessageCreated_replaces_matching_pending_in_place_witness :
    (handleMessageCreated [{ body := some "hi", sent_at := some 5 }]
        { body := some "hi", sent_at := some 5, created_at := some 9 }).length = 1 ∧
    ∃ hi' : 0 < (handleMessageCreated [{ body := some "hi", sent_at := some 5 }]
        { body := some "hi", sent_at := some 5, created_at := some 9 }).length,
      (handleMessageCreated [{ body := some "hi", sent_at := some 5 }]
          { body := some "hi", sent_at := some 5, created_at := some 9 }).get ⟨0, hi'⟩ =
        { body := some "hi", sent_at := some 5, created_at := some 9 } :=
  handleMessageCreated_replaces_matching_pending_in_place
    [{ body := some "hi", sent_at := some 5 }]
    { body := some "hi", sent_at := some 5, created_at := some 9 }
    0 (by decide) (by decide)

/-- Witness for C2 at a concrete transcript: an agent message with a fresh send
timestamp is appended after the lone confirmed entry. -/
theorem handleMessageCreated_appends_when_no_match_witness :
    handleMessageCreated
        [{ body := some "old", sent_at := some 1, created_at := some 2 }]
        { body := some "new", type := MessageType.agent, sent_at := some 7,
          created_at := some 8 } =
      [{ body := some "old", sent_at := some 1, created_at := some 2 },
       { body := some "new", type := MessageType.agent, sent_at := some 7,
         created_at := some 8 }] ∧
    (handleMessageCreated
        [{ body := some "old", sent_at := some 1, created_at := some 2 }]
        { body := some "new", type := MessageType.agent, sent_at := some 7,
          created_at := some 8 }).length = 1 + 1 :=
  handleMessageCreated_appends_when_no_match
    [{ body := some "old", sent_at := some 1, created_at := some 2 }]
    { body := some "new", type := MessageType.agent, sent_at := some 7,
      created_at := some 8 }
    (by decide)

/-- C3 fails on the code: with two pending entries that share the send timestamp
100 but have different non-empty bodies "a" and "b", the confirmed event matching
the first replaces BOTH entries (the in-place map keys on send timestamp alone),
so the distinct pending message "b" is silently dropped and the confirmed event
duplicated. -/
theorem handleMessageCreated_drops_distinct_pending_same_timestamp :
    handleMessageCreated
        [{ body := some "a", sent_at := some 100 },
         { body := some "b", sent_at := some 100 }]
        { body := some "a", sent_at := some 100, created_at := some 200 } =
      [{ body := some "a", sent_at := some 100, created_at := some 200 },
       { body := some "a", sent_at := some 100, created_at := some 200 }] ∧
    ({ body := some "b", sent_at := some 100 } : Message) ∉
      handleMessageCreated
        [{ body := some "a", sent_at := some 100 },
         { body := some "b", sent_at := some 100 }]
        { body := some "a", sent_at := some 100, created_at := some 200 } := by
  constructor
  · rfl
  · decide

/-- C4: a send whose body is empty or whitespace-only and which carries no
attachment ids is a no-op — the state (transcript included) is unchanged and no
action (customer/conversation creation, channel push) is emitted. -/
theorem sendNewMessage_blank_is_noop (st : SessionState) (message : MessageInput)
    (now : Nat) (updateSucceeds : Bool) (apiCustomerId apiConversationId : String)
    (hbody : jsTrim (message.body.getD "") = "")
    (hfiles : message.file_ids.getD [] = []) :
    sendNewMessage st message now updateSucceeds apiCustomerId apiConversationId =
      (st, []) := by
  simp [sendNewMessage, hbody, hfiles]

/-- Witness for C4: sending a whitespace-only body with no attachments from the
fresh session state changes nothing and emits nothing. -/
theorem sendNewMessage_blank_is_noop_witness :
    sendNewMessage {} { body := some "   " } 3 true "cust" "conv" = ({}, []) :=
  sendNewMessage_blank_is_noop {} { body := some "   " } 3 true "cust" "conv"
    (by decide) (by decide)

/-- C5: a missing, empty or format-invalid customer id is judged invalid with no
backend validation call; a well-formed id whose backend validation call fails is
judged valid (backward compatibility), the call having been made. -/
theorem isValidCustomerId_format_gate_and_backcompat (customerId : Option String)
    (isValidUuid : String → Bool) (api : String → Except Unit Bool) :
    ((customerId = none ∨ customerId = some "" ∨
        ∃ c, customerId = some c ∧ isValidUuid c = false) →
      isValidCustomerId customerId isValidUuid api = (false, [])) ∧
    (∀ c e, customerId = some c → c ≠ "" → isValidUuid c = true →
      api c = Except.error e →
      isValidCustomerId customerId isValidUuid api =
        (true, [Action.validateCustomer c])) := by
  constructor
  · rintro (rfl | rfl | ⟨c, rfl, hc⟩)
    · rfl
    · rfl
    · rcases h0 : (c.length == 0) with _ | _
      · simp [isValidCustomerId, h0, hc]
      · simp [isValidCustomerId, h0]
  · rintro c e rfl hne huuid herr
    have h0 : (c.length == 0) = false := by
      simp only [beq_eq_false_iff_ne, ne_eq]
      intro hlen
      exact hne (String.ext (List.length_eq_zero.mp hlen))
    simp [isValidCustomerId, h0, huuid, herr]

/-- Witness for C5: a non-UUID id is rejected with no backend call, and a
well-formed id whose backend check throws is accepted after the call. -/
theorem isValidCustomerId_format_gate_and_backcompat_witness :
    isValidCustomerId (some "bad") (fun s => s == "1111")
        (fun _ => Except.error ()) = (false, []) ∧
    isValidCustomerId (some "1111") (fun s => s == "1111")
        (fun _ => Except.error ()) = (true, [Action.validateCustomer "1111"]) :=
  ⟨(isValidCustomerId_format_gate_and_backcompat (some "bad")
      (fun s => s == "1111") (fun _ => Except.error ())).1
      (Or.inr (Or.inr ⟨"bad", rfl, by decide⟩)),
   (isValidCustomerId_format_gate_and_backcompat (some "1111")
      (fun s => s == "1111") (fun _ => Except.error ())).2
      "1111" () rfl (by decide) (by decide) rfl⟩

/-- C6: with no metadata or no external id the candidate id is kept unchanged;
with an external id, a backend match (even one differing from the candidate) is
the result, and a missing match yields `none` regardless of the candidate. -/
theorem checkForExistingCustomer_metadata_resolution
    (api : String → Option String → Option String → Option String)
    (metadata : Option CustomerMetadata) (defaultCustomerId : Option String) :
    ((metadata = none ∨ ∃ md, metadata = some md ∧ isFalsyStr md.external_id = true) →
      checkForExistingCustomer api metadata defaultCustomerId = defaultCustomerId) ∧
    (∀ md eid, metadata = some md → md.external_id = some eid → eid ≠ "" →
      (api eid md.email md.host = none →
        checkForExistingCustomer api metadata defaultCustomerId = none) ∧
      (∀ m, api eid md.email md.host = some m → m ≠ "" →
        checkForExistingCustomer api metadata defaultCustomerId = some m)) := by
  constructor
  · rintro (rfl | ⟨md, rfl, hmd⟩)
    · rfl
    · simp [checkForExistingCustomer, hmd]
  · rintro md eid rfl heid hne
    have heidne : (eid == "") = false := by simpa using hne
    constructor
    · intro hapi
      simp [checkForExistingCustomer, findCustomerByMetadata, heid, isFalsyStr,
        heidne, hapi]
    · intro m hapi hm
      rcases hdef : (some m == defaultCustomerId) with _ | _
      · have hdefne : some m ≠ defaultCustomerId := by simpa using hdef
        simp [checkForExistingCustomer, findCustomerByMetadata, heid, isFalsyStr,
          heidne, hapi, hm, hdefne]
      · have hdefeq : some m = defaultCustomerId := by simpa using hdef
        subst hdefeq
        simp [checkForExistingCustomer, findCustomerByMetadata, heid, isFalsyStr,
          heidne, hapi, hm]

/-- Witness for C6: metadata with external id "x" resolves to the backend match
"m1" over the cached candidate "c0"; absent metadata keeps the candidate. -/
theorem checkForExistingCustomer_metadata_resolution_witness :
    checkForExistingCustomer (fun e _ _ => if e == "x" then some "m1" else none)
        (some { external_id := some "x" }) (some "c0") = some "m1" ∧
    checkForExistingCustomer (fun e _ _ => if e == "x" then some "m1" else none)
        none (some "c0") = some "c0" :=
  ⟨((checkForExistingCustomer_metadata_resolution
      (fun e _ _ => if e == "x" then some "m1" else none)
      (some { external_id := some "x" }) (some "c0")).2
      { external_id := some "x" } "x" rfl rfl (by decide)).2 "m1" (by decide) (by decide),
   (checkForExistingCustomer_metadata_resolution
      (fun e _ _ => if e == "x" then some "m1" else none)
      none (some "c0")).1 (Or.inl rfl)⟩

theorem setConversationId_trace_bounded (st : SessionState) (cid : String) (n : Nat) :
    (joinedChannels st.channel.toList (((setConversationId st cid).2).take n)).length ≤ 1 := by
  rcases hch : st.channel with _ | t
  · match n with
    | 0 => simp [joinedChannels, setConversationId, joinConversationChannel, hch]
    | n+1 =>
      simp [joinedChannels, setConversationId, joinConversationChannel, hch, applyAction]
  · match n with
    | 0 => simp [joinedChannels, setConversationId, joinConversationChannel, hch]
    | 1 =>
      simp [joinedChannels, setConversationId, joinConversationChannel, hch, applyAction]
    | n+2 =>
      simp [joinedChannels, setConversationId, joinConversationChannel, hch, applyAction]

theorem setConversationId_trace_inv (st : SessionState) (cid : String) :
    joinedChannels st.channel.toList (setConversationId st cid).2 =
      ((setConversationId st cid).1).channel.toList := by
  rcases hch : st.channel with _ | t <;>
    simp [joinedChannels, setConversationId, joinConversationChannel, hch, applyAction]

theorem runSetConversationIds_trace_bounded (cids : List String) :
    ∀ (st : SessionState) (n : Nat),
      (joinedChannels st.channel.toList
        (((runSetConversationIds st cids).2).take n)).length ≤ 1 := by
  induction cids with
  | nil =>
    intro st n
    cases st.channel <;> simp [runSetConversationIds, joinedChannels]
  | cons c cs ih =>
    intro st n
    have hrun : (runSetConversationIds st (c :: cs)).2 =
        (setConversationId st c).2 ++
          (runSetConversationIds (setConversationId st c).1 cs).2 := rfl
    rw [hrun, List.take_append_eq_append_take, joinedChannels, List.foldl_append]
    by_cases hn : n ≤ (setConversationId st c).2.length
    · rw [Nat.sub_eq_zero_of_le hn]
      simp only [List.take_zero, List.foldl_nil]
      exact setConversationId_trace_bounded st c n
    · have hfull : (setConversationId st c).2.take n = (setConversationId st c).2 :=
        List.take_of_length_le (Nat.le_of_lt (Nat.lt_of_not_le hn))
      rw [hfull]
      have hinv := setConversationId_trace_inv st c
      rw [show List.foldl applyAction st.channel.toList (setConversationId st c).2 =
            joinedChannels st.channel.toList (setConversationId st c).2 from rfl, hinv]
      exact ih (setConversationId st c).1 (n - (setConversationId st c).2.length)

/-- C7: across any sequence of `setConversationId` calls from a fresh session, at
most one conversation channel is joined at every point of the action trace; and
whenever a channel handle already exists, the emitted trace of one call leaves
it strictly before joining the new conversation's channel. -/
theorem setConversationId_at_most_one_channel :
    (∀ (cids : List String) (n : Nat),
      (joinedChannels [] (((runSetConversationIds {} cids).2).take n)).length ≤ 1) ∧
    (∀ (st : SessionState) (c cid : String), st.channel = some c →
      (setConversationId st cid).2 =
        [Action.leaveChannel c, Action.joinChannel (conversationTopic cid)]) := by
  constructor
  · intro cids n
    exact runSetConversationIds_trace_bounded cids {} n
  · intro st c cid hch
    simp [setConversationId, joinConversationChannel, hch]

/-- Witness for C7: two successive conversation switches keep at most one joined
channel, and a switch from a joined channel emits leave-then-join. -/
theorem setConversationId_at_most_one_channel_witness :
    (joinedChannels [] (((runSetConversationIds {} ["a", "b"]).2).take 3)).length ≤ 1 ∧
    (setConversationId { channel := some "conversation:a" } "b").2 =
      [Action.leaveChannel "conversation:a",
       Action.joinChannel (conversationTopic "b")] :=
  ⟨setConversationId_at_most_one_channel.1 ["a", "b"] 3,
   setConversationId_at_most_one_channel.2 { channel := some "conversation:a" }
     "conversation:a" "b" rfl⟩

/-- C8 as stated fails on the code: `getDefaultGreeting` stamps the default
creation timestamp from the ambient clock, so two invocations with identical
configuration, settings and overrides but different clock readings return
different sequences. -/
theorem getDefaultGreeting_not_clock_independent :
    getDefaultGreeting { accountId := "a", greeting := some "hi" } {} 0 {} ≠
      getDefaultGreeting { accountId := "a", greeting := some "hi" } {} 1 {} := by
  decide

/-- C8 amended: `getDefaultGreeting` is deterministic once the clock reading is
counted among its inputs — equal configuration, settings and overrides give
equal results whenever the overrides pin the creation timestamp or the clock
readings agree; and with no greeting and no away message configured or fetched
(and no custom initial-message generator), it returns the empty sequence. -/
theorem getDefaultGreeting_deterministic_and_empty
    (config : Config) (settings : WidgetSettings) (ov : GreetingOverrides)
    (t₁ t₂ : Nat) :
    ((ov.created_at.isSome = true ∨ t₁ = t₂) →
      getDefaultGreeting config settings t₁ ov =
        getDefaultGreeting config settings t₂ ov) ∧
    ((config.setInitialMessage = none ∧
        isFalsyStr (orFalsy config.greeting settings.greeting) = true ∧
        isFalsyStr (orFalsy config.awayMessage settings.away_message) = true) →
      getDefaultGreeting config settings t₁ ov = []) := by
  constructor
  · rintro (hov | rfl)
    · rcases hov' : ov.created_at with _ | v
      · rw [hov'] at hov
        simp at hov
      · cases hgen : config.setInitialMessage
        · simp [getDefaultGreeting, hgen, applyGreetingOverrides, hov']
        · simp [getDefaultGreeting, hgen]
    · rfl
  · rintro ⟨hgen, hg, ha⟩
    simp [getDefaultGreeting, hgen, hg, ha]

/-- Witness for C8 (amended): pinned overrides make the result clock-independent
at a concrete configuration, and an unconfigured greeting yields the empty
sequence. -/
theorem getDefaultGreeting_deterministic_and_empty_witness :
    (getDefaultGreeting { accountId := "a", greeting := some "hi" } {} 0
        { created_at := some (some 42) } =
      getDefaultGreeting { accountId := "a", greeting := some "hi" } {} 1
        { created_at := some (some 42) }) ∧
    getDefaultGreeting { accountId := "a" } {} 0 {} = [] :=
  ⟨(getDefaultGreeting_deterministic_and_empty
      { accountId := "a", greeting := some "hi" } {}
      { created_at := some (some 42) } 0 1).1 (Or.inl rfl),
   (getDefaultGreeting_deterministic_and_empty { accountId := "a" } {} {} 0 0).2
      ⟨rfl, rfl, rfl⟩⟩

theorem sortMessagesByCreatedAt_perm (messages : List Message) :
    (sortMessagesByCreatedAt messages).Perm messages :=
  List.mergeSort_perm messages _

theorem sortMessagesByCreatedAt_pairwise (messages : List Message) :
    List.Pairwise (fun a b => createdAtKey a ≤ createdAtKey b)
      (sortMessagesByCreatedAt messages) := by
  have h : List.Pairwise
      (fun a b => (decide (createdAtKey a ≤ createdAtKey b)) = true)
      (messages.mergeSort (fun a b => decide (createdAtKey a ≤ createdAtKey b))) :=
    List.sorted_mergeSort
      (fun a b c h1 h2 => by
        simp only [decide_eq_true_eq] at h1 h2 ⊢
        omega)
      (fun a b => by
        simp only [Bool.or_eq_true, decide_eq_true_eq]
        exact Nat.le_total _ _)
      messages
  exact h.imp (fun hab => by simpa using hab)

/-- C9: resolving a found conversation whose messages are all confirmed sets the
conversation id, joins that conversation's channel, and in the same step sets
the transcript to the greeting default — creation and seen timestamps both
pinned to the earliest real message's creation time `t` — followed by the
conversation's messages in ascending creation order. -/
theorem fetchLatestConversationFound_transcript (st : SessionState) (config : Config)
    (conv : Conversation) (now : Nat)
    (hne : conv.messages ≠ [])
    (hconf : ∀ m ∈ conv.messages, m.created_at.isSome = true)
    (hgen : config.setInitialMessage = none) :
    (fetchLatestConversationFound st config conv now).1.conversationId =
      some conv.id ∧
    (fetchLatestConversationFound st config conv now).1.channel =
      some (conversationTopic conv.id) ∧
    Action.joinChannel (conversationTopic conv.id) ∈
      (fetchLatestConversationFound st config conv now).2 ∧
    ∃ t first rest,
      (fetchLatestConversationFound st config conv now).1.messages =
        getDefaultGreeting config st.settings now
          { created_at := some (some t), seen_at := some (some t) } ++
          first :: rest ∧
      (first :: rest).Perm conv.messages ∧
      List.Pairwise (fun a b => createdAtKey a ≤ createdAtKey b) (first :: rest) ∧
      first.created_at = some t ∧
      (∀ m ∈ conv.messages, t ≤ createdAtKey m) ∧
      (∀ g ∈ getDefaultGreeting config st.settings now
          { created_at := some (some t), seen_at := some (some t) },
        g.created_at = some t ∧ g.seen_at = some t) := by
  have hperm := sortMessagesByCreatedAt_perm conv.messages
  have hpair := sortMessagesByCreatedAt_pairwise conv.messages
  have hsne : sortMessagesByCreatedAt conv.messages ≠ [] := by
    intro h
    rw [h] at hperm
    exact hne (List.nil_perm.mp hperm)
  obtain ⟨first, rest, hcons⟩ := List.exists_cons_of_ne_nil hsne
  have hfirstmem : first ∈ conv.messages := by
    refine hperm.mem_iff.mp ?_
    rw [hcons]
    exact List.mem_cons_self _ _
  obtain ⟨t, ht⟩ := Option.isSome_iff_exists.mp (hconf first hfirstmem)
  have hkeyfirst : createdAtKey first = t := by
    simp [createdAtKey, ht]
  refine ⟨rfl, rfl, ?_, t, first, rest, ?_, ?_, ?_, ht, ?_, ?_⟩
  · simp [fetchLatestConversationFound, setConversationId, joinConversationChannel]
  · have hhead : (sortMessagesByCreatedAt conv.messages).head? = some first := by
      rw [hcons]; rfl
    simp only [fetchLatestConversationFound, hhead, ht]
    rw [hcons]
    rfl
  · rw [← hcons]; exact hperm
  · rw [← hcons]; exact hpair
  · intro m hm
    have hmem : m ∈ first :: rest := by
      rw [← hcons]
      exact hperm.mem_iff.mpr hm
    rcases List.mem_cons.mp hmem with rfl | hmr
    · rw [hkeyfirst]
    · rw [← hkeyfirst]
      exact (List.pairwise_cons.mp (hcons ▸ hpair)).1 m hmr
  · intro g hg
    simp only [getDefaultGreeting, hgen] at hg
    rcases hif : isFalsyStr (orFalsy config.greeting st.settings.greeting) &&
        isFalsyStr (orFalsy config.awayMessage st.settings.away_message) with _ | _
    · rw [hif] at hg
      simp only [Bool.false_eq_true, if_false, List.mem_singleton] at hg
      subst hg
      simp [applyGreetingOverrides]
    · rw [hif] at hg
      simp at hg

/-- Witness for C9: the concrete two-message conversation resolves to conversation
id "c1" with its channel joined and the pinned greeting preceding the sorted
messages. -/
theorem fetchLatestConversationFound_transcript_witness :
    (fetchLatestConversationFound {} witnessConfig witnessConversation 7).1.conversationId =
      some witnessConversation.id ∧
    (fetchLatestConversationFound {} witnessConfig witnessConversation 7).1.channel =
      some (conversationTopic witnessConversation.id) ∧
    Action.joinChannel (conversationTopic witnessConversation.id) ∈
      (fetchLatestConversationFound {} witnessConfig witnessConversation 7).2 ∧
    ∃ t first rest,
      (fetchLatestConversationFound {} witnessConfig witnessConversation 7).1.messages =
        getDefaultGreeting witnessConfig ({} : SessionState).settings 7
          { created_at := some (some t), seen_at := some (some t) } ++
          first :: rest ∧
      (first :: rest).Perm witnessConversation.messages ∧
      List.Pairwise (fun a b => createdAtKey a ≤ createdAtKey b) (first :: rest) ∧
      first.created_at = some t ∧
      (∀ m ∈ witnessConversation.messages, t ≤ createdAtKey m) ∧
      (∀ g ∈ getDefaultGreeting witnessConfig ({} : SessionState).settings 7
          { created_at := some (some t), seen_at := some (some t) },
        g.created_at = some t ∧ g.seen_at = some t) :=
  fetchLatestConversationFound_transcript {} witnessConfig witnessConversation 7
    (by decide) (by decide) rfl

/-- C10: marking messages as seen keeps the transcript's length and order; every
message already carrying a seen timestamp is returned unchanged, and every
message lacking one is returned identical except that the seen timestamp is set
to the clock reading. -/
theorem markMessagesAsSeen_frame (st : SessionState) (now : Nat) :
    (markMessagesAsSeen st now).1.messages.length = st.messages.length ∧
    ∀ (i : Nat) (hi : i < st.messages.length),
      ∃ hi' : i < (markMessagesAsSeen st now).1.messages.length,
        ((st.messages.get ⟨i, hi⟩).seen_at.isSome = true →
          (markMessagesAsSeen st now).1.messages.get ⟨i, hi'⟩ =
            st.messages.get ⟨i, hi⟩) ∧
        ((st.messages.get ⟨i, hi⟩).seen_at = none →
          (markMessagesAsSeen st now).1.messages.get ⟨i, hi'⟩ =
            { st.messages.get ⟨i, hi⟩ with seen_at := some now }) := by
  have hlen : (markMessagesAsSeen st now).1.messages.length = st.messages.length := by
    simp [markMessagesAsSeen]
  refine ⟨hlen, ?_⟩
  intro i hi
  have hget : (markMessagesAsSeen st now).1.messages.get ⟨i, hlen ▸ hi⟩ =
      if (st.messages.get ⟨i, hi⟩).seen_at.isSome then st.messages.get ⟨i, hi⟩
      else {st.messages.get ⟨i, hi⟩ with seen_at := some now} := by
    simp [markMessagesAsSeen, List.get_eq_getElem, List.getElem_map]
  refine ⟨hlen ▸ hi, ?_, ?_⟩
  · intro hseen
    rw [hget, if_pos hseen]
  · intro hnone
    have hcond : ¬ ((st.messages.get ⟨i, hi⟩).seen_at.isSome = true) := by
      rw [hnone]
      simp
    rw [hget, if_neg hcond]

/-- Witness for C10: in the concrete transcript the unseen message at index 1
gains the seen timestamp 9 while keeping its other fields. -/
theorem markMessagesAsSeen_frame_witness :
    ∃ hi' : 1 < (markMessagesAsSeen witnessSeenState 9).1.messages.length,
      (markMessagesAsSeen witnessSeenState 9).1.messages.get ⟨1, hi'⟩ =
        { body := some "y", seen_at := some 9 } := by
  obtain ⟨hlen, h⟩ := markMessagesAsSeen_frame witnessSeenState 9
  obtain ⟨hi', hkeep, hstamp⟩ := h 1 (by decide)
  refine ⟨hi', ?_⟩
  rw [hstamp (by decide)]
  rfl

end Papercups
